import Mathlib

/-!
Verification development for the "logger" personal finance bot
(src/logger.py).  The Python source is shallowly embedded: SQLite tables
become Lean structures and lists of rows, each database-touching handler
becomes a pure function on a database value, and monetary amounts (Python
floats holding decimal user input) are idealized as rationals.  Timestamps
produced by SQLite's CURRENT_TIMESTAMP are threaded as explicit string
parameters, matching the spec's note that timestamps are sortable
`YYYY-MM-DD HH:MM:SS` strings.
-/

namespace Logger

/-- Monetary amounts. `float(...)` values from user input are idealized as
rationals. -/
abbrev Amount := ℚ

/-! ## Data model: goals / debts and their savings ledger

From `init_db` (src/logger.py lines 127-142): table `goals` has columns
id, user_id, name (declared `TEXT NOT NULL UNIQUE` — note: unique over the
whole table, not per user), target_amount, current_amount (default 0),
currency, type (default 'goal'), notified_90_percent (default 0); table
`savings` has id, goal_id (FK to goals, cascade delete), amount, saved_at. -/

/-- One row of the `goals` table. -/
structure Goal where
  id : Nat
  user_id : Nat
  name : String
  target_amount : Amount
  current_amount : Amount
  currency : String
  type : String
  notified_90_percent : Bool
deriving Repr, DecidableEq

/-- One row of the `savings` table (the contribution ledger). -/
structure Saving where
  id : Nat
  goal_id : Nat
  amount : Amount
  saved_at : String
deriving Repr, DecidableEq

/-- The goals/savings part of the SQLite database, with AUTOINCREMENT
counters. -/
structure GoalsDb where
  goals : List Goal
  savings : List Saving
  nextGoalId : Nat
  nextSavingId : Nat
deriving Repr, DecidableEq

/-! ## Paginated selector

From `generate_paginated_keyboard` (src/logger.py lines 251-272). -/

/-- `ITEMS_PER_PAGE = 5` (src/logger.py line 37). -/
def ITEMS_PER_PAGE : Nat := 5

/-- A Telegram `InlineKeyboardButton`: display text and callback payload. -/
structure Button where
  text : String
  callback_data : String
deriving Repr, DecidableEq

/-- Python list slicing `items[start:stop]` for `0 ≤ start ≤ stop`
(both ends clamped to the list length, as in Python). -/
def pySlice {α : Type} (items : List α) (start stop : Nat) : List α :=
  (items.drop start).take (stop - start)

/-- The button built for one goal row:
`InlineKeyboardButton(f"{emoji} {name} ({currency})",
callback_data=f"{prefix}_{item_id}")`. -/
def goalButton (pre : String) (g : Goal) : Button :=
  let emoji := if g.type = "goal" then "🎯" else "⛓️"
  { text := emoji ++ " " ++ g.name ++ " (" ++ g.currency ++ ")",
    callback_data := pre ++ "_" ++ toString g.id }

/-- The `"⬅️ Previous"` navigation button with
`callback_data=f"nav_{prefix}_{page - 1}"`. -/
def navPrevButton (pre : String) (page : Nat) : Button :=
  { text := "⬅️ Previous", callback_data := "nav_" ++ pre ++ "_" ++ toString (page - 1) }

/-- The `"Next ➡️"` navigation button with
`callback_data=f"nav_{prefix}_{page + 1}"`. -/
def navNextButton (pre : String) (page : Nat) : Button :=
  { text := "Next ➡️", callback_data := "nav_" ++ pre ++ "_" ++ toString (page + 1) }

/-- `generate_paginated_keyboard(items, prefix, page)`
(src/logger.py lines 251-272): one row per item in
`items[start_index:end_index]`, then a navigation row (if nonempty) with
Previous iff `page > 0` and Next iff `end_index < len(items)`. -/
def generate_paginated_keyboard (items : List Goal) (pre : String) (page : Nat) :
    List (List Button) :=
  let start_index := page * ITEMS_PER_PAGE
  let end_index := start_index + ITEMS_PER_PAGE
  let keyboard := (pySlice items start_index end_index).map (fun item => [goalButton pre item])
  let nav_row :=
    (if page > 0 then [navPrevButton pre page] else [])
      ++ (if end_index < items.length then [navNextButton pre page] else [])
  if nav_row = [] then keyboard else keyboard ++ [nav_row]

/-- Modelled from the spec (§4.2): `visibleSlice =
items[pageIndex*pageSize : pageIndex*pageSize+pageSize]`. -/
def spec_visibleSlice {α : Type} (items : List α) (pageSize pageIndex : Nat) : List α :=
  (items.drop (pageIndex * pageSize)).take pageSize

/-- Modelled from the spec (§4.2): `hasPrev = pageIndex > 0`. -/
def spec_hasPrev (pageIndex : Nat) : Prop := pageIndex > 0

/-- Modelled from the spec (§4.2):
`hasNext = (pageIndex+1)*pageSize < len(items)`. -/
def spec_hasNext (numItems pageSize pageIndex : Nat) : Prop :=
  (pageIndex + 1) * pageSize < numItems

instance (pageIndex : Nat) : Decidable (spec_hasPrev pageIndex) := by
  unfold spec_hasPrev; infer_instance

instance (numItems pageSize pageIndex : Nat) :
    Decidable (spec_hasNext numItems pageSize pageIndex) := by
  unfold spec_hasNext; infer_instance

/-! ## Inserting goals, debts and payments

`get_goal_currency_and_save` (lines 981-994), `get_debt_currency_and_save`
(lines 1012-1025) and `save_payment` (lines 1543-1589) INSERT a row and
report a user-facing conflict when SQLite raises `IntegrityError`.  The
only integrity constraint on these inserts is `name TEXT NOT NULL UNIQUE`
(a table-wide constraint, lines 130 and 188), so the insert fails exactly
when any existing row — whatever its `user_id` — carries the same name.
String case mapping (`.upper()` on the currency reply) is Python library
behaviour outside the embedded logic; parameters below stand for the
already upper/lower-cased text. -/

/-- One row of the `payments` table (lines 185-193). -/
structure Payment where
  id : Nat
  user_id : Nat
  name : String
  target_amount : Amount
  current_amount : Amount
  currency : String
  payment_amount : Amount
  payment_frequency : String
  recipient : String
deriving Repr, DecidableEq

/-- One row of the `payment_history` table (lines 194-199). -/
structure PaymentHistoryEntry where
  id : Nat
  payment_id : Nat
  amount : Amount
  paid_at : String
deriving Repr, DecidableEq

/-- The payments part of the database. -/
structure PaymentsDb where
  payments : List Payment
  history : List PaymentHistoryEntry
  nextPaymentId : Nat
  nextHistoryId : Nat
deriving Repr, DecidableEq

/-- `INSERT INTO goals (user_id, name, target_amount, currency, type)`:
succeeds appending a row with the defaulted columns
(`current_amount = 0`, `notified_90_percent = 0`), or raises
`IntegrityError` when the UNIQUE constraint on `goals.name` is violated
by any existing row. -/
def goalsInsert (db : GoalsDb) (u : Nat) (name : String) (target : Amount)
    (currency ty : String) : Except String GoalsDb :=
  if db.goals.any (fun g => decide (g.name = name)) then
    Except.error "IntegrityError: UNIQUE constraint failed: goals.name"
  else
    let row : Goal :=
      { id := db.nextGoalId, user_id := u, name := name, target_amount := target,
        current_amount := 0, currency := currency, type := ty,
        notified_90_percent := false }
    Except.ok { db with goals := db.goals ++ [row], nextGoalId := db.nextGoalId + 1 }

/-- `INSERT INTO payments (...)`: same UNIQUE constraint on
`payments.name`. -/
def paymentsInsert (db : PaymentsDb) (u : Nat) (name : String) (target : Amount)
    (currency : String) (payment_amount : Amount) (frequency recipient : String) :
    Except String PaymentsDb :=
  if db.payments.any (fun p => decide (p.name = name)) then
    Except.error "IntegrityError: UNIQUE constraint failed: payments.name"
  else
    let row : Payment :=
      { id := db.nextPaymentId, user_id := u, name := name, target_amount := target,
        current_amount := 0, currency := currency, payment_amount := payment_amount,
        payment_frequency := frequency, recipient := recipient }
    Except.ok { db with payments := db.payments ++ [row],
                        nextPaymentId := db.nextPaymentId + 1 }

/-- User-visible outcome of a terminal write. -/
inductive SaveOutcome
  | success
  | conflict
deriving Repr, DecidableEq

/-- `get_goal_currency_and_save` (lines 981-994): commits the INSERT, or on
`IntegrityError` reports the conflict message ("You already have something
with that name...") and leaves the store untouched; either way the session
is cleared. -/
def get_goal_currency_and_save (db : GoalsDb) (u : Nat) (goal_name : String)
    (goal_amount : Amount) (currency : String) : GoalsDb × SaveOutcome :=
  match goalsInsert db u goal_name goal_amount currency "goal" with
  | Except.ok db1 => (db1, SaveOutcome.success)
  | Except.error _ => (db, SaveOutcome.conflict)

/-- `save_payment` (lines 1543-1589): coerces the frequency reply to
'monthly' unless it is one of the four known values, commits the INSERT,
or on `IntegrityError` reports the conflict message and leaves the store
untouched. -/
def save_payment (db : PaymentsDb) (u : Nat) (name recipient : String)
    (target : Amount) (currency : String) (amount : Amount) (frequencyText : String) :
    PaymentsDb × SaveOutcome :=
  let frequency :=
    if frequencyText = "weekly" ∨ frequencyText = "monthly" ∨ frequencyText = "quarterly"
        ∨ frequencyText = "yearly" then frequencyText else "monthly"
  match paymentsInsert db u name target currency amount frequency recipient with
  | Except.ok db1 => (db1, SaveOutcome.success)
  | Except.error _ => (db, SaveOutcome.conflict)

/-! ## Logging a contribution (`get_amount_and_save`, lines 1111-1166)

On a successful parse the handler, in one transaction (single
`conn.commit()` on line 1127), INSERTs one `savings` row and UPDATEs the
goal's `current_amount` by the same amount; it then re-fetches the goal
and runs the notification chain of lines 1139-1146.  The connection has
`PRAGMA foreign_keys = ON`, so if no goal with `goal_id` exists the
ledger INSERT raises and the generic exception handler leaves the
database unchanged (nothing was committed). -/

/-- Alert messages sent by lines 1140-1146. -/
inductive GoalAlert
  | reached
  | almostThere
  | debtCleared
deriving Repr, DecidableEq

/-- `get_goal_by_id` (lines 311-317). -/
def get_goal_by_id (db : GoalsDb) (goal_id : Nat) : Option Goal :=
  db.goals.find? (fun g => decide (g.id = goal_id))

/-- `progress_percent = (current / target) * 100 if target > 0 else 0`
(line 1139, same formula in fmt_goal_list line 217). -/
def progress_percent (g : Goal) : Amount :=
  if g.target_amount > 0 then g.current_amount / g.target_amount * 100 else 0

/-- The transaction committed on line 1127: `INSERT INTO savings (goal_id,
amount) VALUES (?, ?)` together with `UPDATE goals SET current_amount =
current_amount + ? WHERE id = ?`. -/
def applyContribution (db : GoalsDb) (goal_id : Nat) (amount : Amount) (now : String) :
    GoalsDb :=
  { db with
    savings := db.savings ++
      [{ id := db.nextSavingId, goal_id := goal_id, amount := amount, saved_at := now }],
    goals := db.goals.map (fun g =>
      if g.id = goal_id then { g with current_amount := g.current_amount + amount } else g),
    nextSavingId := db.nextSavingId + 1 }

/-- `UPDATE goals SET notified_90_percent = 1 WHERE id = ?` (line 1144). -/
def setNotifiedFlag (db : GoalsDb) (goal_id : Nat) : GoalsDb :=
  { db with goals := db.goals.map (fun x =>
      if x.id = goal_id then { x with notified_90_percent := true } else x) }

/-- The committed effect of one successful `get_amount_and_save` pass
(lines 1123-1148): ledger INSERT + aggregate UPDATE in one transaction,
then the alert elif-chain of lines 1139-1146 over the re-fetched goal,
which flips `notified_90_percent` when (and only when) the one-shot
"almost there" branch fires. -/
def logContribution (db : GoalsDb) (goal_id : Nat) (amount : Amount) (now : String) :
    GoalsDb × Option GoalAlert :=
  if db.goals.any (fun g => decide (g.id = goal_id)) then
    let db1 := applyContribution db goal_id amount now
    match get_goal_by_id db1 goal_id with
    | none => (db1, none)
    | some g =>
      if g.type = "goal" ∧ progress_percent g ≥ 100 then
        (db1, some GoalAlert.reached)
      else if g.type = "goal" ∧ progress_percent g ≥ 90 ∧ g.notified_90_percent = false then
        (setNotifiedFlag db1 goal_id, some GoalAlert.almostThere)
      else if g.type = "debt" ∧ progress_percent g ≥ 100 then
        (db1, some GoalAlert.debtCleared)
      else (db1, none)
  else (db, none)

/-- The amounts of the ledger entries belonging to one goal. -/
def ledgerAmounts (db : GoalsDb) (goal_id : Nat) : List Amount :=
  (db.savings.filter (fun s => decide (s.goal_id = goal_id))).map Saving.amount

/-- Sum of a goal's ledger entries. -/
def ledgerSum (db : GoalsDb) (goal_id : Nat) : Amount :=
  (ledgerAmounts db goal_id).sum

/-- The stored aggregate `current_amount` of a goal, when it exists. -/
def current_amount_of (db : GoalsDb) (goal_id : Nat) : Option Amount :=
  (get_goal_by_id db goal_id).map Goal.current_amount

/-- A sequence of contribution operations (amount and timestamp pairs)
through the 'add' dialogue. -/
def contributeAll (db : GoalsDb) (goal_id : Nat) (entries : List (Amount × String)) :
    GoalsDb :=
  entries.foldl (fun d e => (logContribution d goal_id e.1 e.2).1) db

/-! ## Expenses and the period report (lines 419-463, 709-755)

`get_expenses_by_period` SELECTs four columns
(`amount, currency, reason, created_at`); its consumers
`get_expense_totals_by_currency` (line 461, `for amount, currency, _, _, _
in expenses` with the comment "Added category field") and
`fmt_expense_report` (line 719, five loop targets) destructure each row
into five values.  Rows are embedded as lists of SQL values so that this
arity mismatch — a Python `ValueError` on any non-empty result — is
visible.  SQLite's `DATE(...)` is the 10-character date part of the
sortable timestamp string; the values of `DATE('now')`,
`DATE('now','-7 days')` and `DATE('now','-30 days')` are computed by the
SQLite engine and threaded as parameters. -/

/-- One row of the `expenses` table (lines 143-150). -/
structure Expense where
  id : Nat
  user_id : Nat
  amount : Amount
  currency : String
  reason : String
  category : String
  created_at : String
deriving Repr, DecidableEq

/-- A value in a SQL result row. -/
inductive SqlValue
  | num (q : Amount)
  | str (s : String)
deriving Repr, DecidableEq

/-- SQLite `DATE(ts)` on a `YYYY-MM-DD HH:MM:SS` timestamp string. -/
def sqlDate (ts : String) : String := ts.take 10

/-- The SELECT list `amount, currency, reason, created_at` of
`get_expenses_by_period` — four columns. -/
def expenseSelectRow (e : Expense) : List SqlValue :=
  [SqlValue.num e.amount, SqlValue.str e.currency, SqlValue.str e.reason,
   SqlValue.str e.created_at]

/-- `get_expenses_by_period(user_id, period)` (lines 419-455): filters by
user and period window, orders by `created_at DESC`, and returns the
4-column rows. -/
def get_expenses_by_period (expenses : List Expense) (user_id : Nat) (period : String)
    (todayD weekAgoD monthAgoD : String) : List (List SqlValue) :=
  let rows :=
    if period = "today" then
      expenses.filter (fun e => decide (e.user_id = user_id ∧ sqlDate e.created_at = todayD))
    else if period = "week" then
      expenses.filter (fun e => decide (e.user_id = user_id ∧ weekAgoD ≤ sqlDate e.created_at))
    else if period = "month" then
      expenses.filter (fun e => decide (e.user_id = user_id ∧ monthAgoD ≤ sqlDate e.created_at))
    else
      expenses.filter (fun e => decide (e.user_id = user_id))
  (rows.mergeSort (fun a b => decide (b.created_at ≤ a.created_at))).map expenseSelectRow

/-- Python tuple unpacking of a row into five targets
(`for amount, currency, _, _, _ in expenses`): raises `ValueError` unless
the row has exactly five values. -/
def pyUnpack5 (row : List SqlValue) :
    Except String (SqlValue × SqlValue × SqlValue × SqlValue × SqlValue) :=
  match row with
  | [a, b, c, d, e] => Except.ok (a, b, c, d, e)
  | _ => Except.error "ValueError: not enough values to unpack (expected 5)"

/-- `totals[currency] = totals.get(currency, 0) + amount`: dict update,
embedded as an association-list update. -/
def addTotal (totals : List (String × Amount)) (cur : String) (amt : Amount) :
    List (String × Amount) :=
  if totals.any (fun kv => decide (kv.1 = cur)) then
    totals.map (fun kv => if kv.1 = cur then (kv.1, kv.2 + amt) else kv)
  else totals ++ [(cur, amt)]

/-- `get_expense_totals_by_currency(user_id, period)` (lines 457-463):
iterates the 4-column rows, destructuring each into five targets. -/
def get_expense_totals_by_currency (expenses : List Expense) (user_id : Nat)
    (period : String) (todayD weekAgoD monthAgoD : String) :
    Except String (List (String × Amount)) :=
  (get_expenses_by_period expenses user_id period todayD weekAgoD monthAgoD).foldlM
    (fun totals row => do
      let (a, c, _, _, _) ← pyUnpack5 row
      match a, c with
      | SqlValue.num amt, SqlValue.str cur => pure (addTotal totals cur amt)
      | _, _ => Except.error "TypeError")
    []

/-! ## Budgets (lines 159-167, 466-521, 1412-1469) -/

/-- One row of the `budgets` table (lines 159-167). -/
structure Budget where
  id : Nat
  user_id : Nat
  category : String
  amount : Amount
  currency : String
  period : String
  current_spent : Amount
  created_at : String
  updated_at : String
deriving Repr, DecidableEq

/-- The WHERE clause `user_id = ? AND category = ? AND currency = ?`
shared by `update_budget_spending`, `check_budget_alerts` and
`save_budget`. -/
def budgetMatches (u : Nat) (c cur : String) (b : Budget) : Bool :=
  decide (b.user_id = u ∧ b.category = c ∧ b.currency = cur)

/-- `update_budget_spending(user_id, category, amount, currency)`
(lines 480-496): `UPDATE budgets SET current_spent = current_spent + ?,
updated_at = CURRENT_TIMESTAMP WHERE ...`; returns `rowcount > 0`. -/
def update_budget_spending (budgets : List Budget) (u : Nat) (category : String)
    (amount : Amount) (currency now : String) : List Budget × Bool :=
  (budgets.map (fun b =>
      if budgetMatches u category currency b then
        { b with current_spent := b.current_spent + amount, updated_at := now }
      else b),
   budgets.any (budgetMatches u category currency))

/-- Alerts returned by `check_budget_alerts` (the formatted message's
class and numeric content; cosmetic text is presentation). -/
inductive BudgetAlert
  | exceeded (overBy : Amount)
  | warning (pct remaining : Amount)
deriving Repr, DecidableEq

/-- `percentage = (spent / limit) * 100 if limit > 0 else 0` (line 514). -/
def budgetPct (b : Budget) : Amount :=
  if b.amount > 0 then b.current_spent / b.amount * 100 else 0

/-- `check_budget_alerts(user_id, category, currency)` (lines 498-521):
fetch the matching budget; ≥ 100% → "BUDGET EXCEEDED", else ≥ 80% →
"Budget Warning", else no alert. -/
def check_budget_alerts (budgets : List Budget) (u : Nat) (category currency : String) :
    Option BudgetAlert :=
  match budgets.find? (budgetMatches u category currency) with
  | none => none
  | some b =>
    if budgetPct b ≥ 100 then some (BudgetAlert.exceeded (budgetPct b - 100))
    else if budgetPct b ≥ 80 then
      some (BudgetAlert.warning (budgetPct b) (b.amount - b.current_spent))
    else none

/-- The budgets table with its AUTOINCREMENT counter. -/
structure BudgetsDb where
  rows : List Budget
  nextId : Nat
deriving Repr, DecidableEq

/-- `save_budget` (lines 1412-1469): the period reply (already
lower-cased) is coerced to 'monthly' unless weekly/monthly; if a budget
row with the same (user, category, currency) exists, `UPDATE budgets SET
amount = ?, period = ?, updated_at = CURRENT_TIMESTAMP WHERE id = ?`,
else INSERT a fresh row (`current_spent` defaults to 0). -/
def save_budget (db : BudgetsDb) (u : Nat) (category : String) (amount : Amount)
    (currency periodText now : String) : BudgetsDb × String :=
  let period := if periodText = "weekly" ∨ periodText = "monthly" then periodText
                else "monthly"
  match db.rows.find? (budgetMatches u category currency) with
  | some existing =>
    ({ db with rows := db.rows.map (fun b =>
        if b.id = existing.id then
          { b with amount := amount, period := period, updated_at := now }
        else b) },
     "updated")
  | none =>
    let row : Budget :=
      { id := db.nextId, user_id := u, category := category, amount := amount,
        currency := currency, period := period, current_spent := 0,
        created_at := now, updated_at := now }
    ({ rows := db.rows ++ [row], nextId := db.nextId + 1 }, "created")

/-- The expenses+budgets part of the database touched by `save_expense`. -/
structure ExpensesDb where
  expenses : List Expense
  budgets : List Budget
  nextExpenseId : Nat
deriving Repr, DecidableEq

/-- `save_expense` (lines 1281-1333): INSERT the expense row
unconditionally, then `update_budget_spending` (its result is discarded),
then `check_budget_alerts`. -/
def save_expense (db : ExpensesDb) (u : Nat) (amount : Amount)
    (currency reason category now : String) : ExpensesDb × Bool × Option BudgetAlert :=
  let row : Expense :=
    { id := db.nextExpenseId, user_id := u, amount := amount, currency := currency,
      reason := reason, category := category, created_at := now }
  let res := update_budget_spending db.budgets u category amount currency now
  let db1 : ExpensesDb :=
    { expenses := db.expenses ++ [row], budgets := res.1,
      nextExpenseId := db.nextExpenseId + 1 }
  (db1, res.2, check_budget_alerts db1.budgets u category currency)

/-! ## Assets (lines 152-158, 620-688, 1846-1918, 1996-2083) -/

/-- One row of the `assets` table (lines 152-158). -/
structure Asset where
  id : Nat
  user_id : Nat
  name : String
  amount : Amount
  currency : String
  asset_type : String
  created_at : String
  updated_at : String
deriving Repr, DecidableEq

/-- The assets table with its AUTOINCREMENT counter. -/
structure AssetsDb where
  rows : List Asset
  nextId : Nat
deriving Repr, DecidableEq

/-- The WHERE clause `user_id = ? AND name = ? AND currency = ?` of
`save_asset`'s existence check. -/
def assetMatches (u : Nat) (name currency : String) (a : Asset) : Bool :=
  decide (a.user_id = u ∧ a.name = name ∧ a.currency = currency)

/-- `save_asset` (lines 1869-1918): if an asset with the same
(user, name, currency) exists, `UPDATE assets SET amount = ?,
updated_at = CURRENT_TIMESTAMP WHERE id = ?`, else INSERT. -/
def save_asset (db : AssetsDb) (u : Nat) (name : String) (amount : Amount)
    (currency asset_type now : String) : AssetsDb :=
  match db.rows.find? (assetMatches u name currency) with
  | some existing =>
    { db with rows := db.rows.map (fun a =>
        if a.id = existing.id then { a with amount := amount, updated_at := now }
        else a) }
  | none =>
    let row : Asset :=
      { id := db.nextId, user_id := u, name := name, amount := amount,
        currency := currency, asset_type := asset_type, created_at := now,
        updated_at := now }
    { rows := db.rows ++ [row], nextId := db.nextId + 1 }

/-- `update_asset_amount(asset_id, amount_change, operation)`
(lines 647-674): adds or subtracts directly on `amount` (no ledger, no
floor), bumping `updated_at`; unknown operations return False. -/
def update_asset_amount (db : AssetsDb) (asset_id : Nat) (amount_change : Amount)
    (operation now : String) : AssetsDb × Bool :=
  if operation = "add" then
    ({ db with rows := db.rows.map (fun a =>
        if a.id = asset_id then
          { a with amount := a.amount + amount_change, updated_at := now }
        else a) },
     true)
  else if operation = "subtract" then
    ({ db with rows := db.rows.map (fun a =>
        if a.id = asset_id then
          { a with amount := a.amount - amount_change, updated_at := now }
        else a) },
     true)
  else (db, false)

/-- The stored amount of the asset with a given id (first match, as
`fetchone`). -/
def assetAmount (db : AssetsDb) (asset_id : Nat) : Option Amount :=
  (db.rows.find? (fun a => decide (a.id = asset_id))).map Asset.amount

/-! ## Dialogue engine: the numeric-amount states

Each handler below embeds one `ConversationHandler` state handler whose
expected input is a numeric amount parsed with Python `float(...)`.
`float` either yields a value or raises `ValueError`; that outcome is the
`Option Amount` input (`none` = `ValueError`).  Every handler wraps the
parse in `try/except ValueError` whose except-branch re-prompts and
returns the same state, so the handlers return the next state, the
session (`context.user_data`), and the touched database. -/

/-- A value stashed in `context.user_data`. -/
inductive SessionValue
  | num (q : Amount)
  | str (s : String)
  | id (n : Nat)
deriving Repr, DecidableEq

/-- The per-conversation scratch mapping `context.user_data`. -/
abbrev UserData := List (String × SessionValue)

/-- `context.user_data[key] = value`. -/
def udInsert (ud : UserData) (key : String) (v : SessionValue) : UserData :=
  if ud.any (fun kv => decide (kv.1 = key)) then
    ud.map (fun kv => if kv.1 = key then (key, v) else kv)
  else ud ++ [(key, v)]

/-- `context.user_data.get(key)`. -/
def udLookup (ud : UserData) (key : String) : Option SessionValue :=
  (ud.find? (fun kv => decide (kv.1 = key))).map Prod.snd

/-- The `ConversationHandler` states reachable from the numeric-amount
handlers (from the `range(45)` state enumeration, lines 94-105;
`DLG_END` is `ConversationHandler.END`). -/
inductive DlgState
  | GOAL_AMOUNT | GOAL_CURRENCY
  | DEBT_AMOUNT | DEBT_CURRENCY
  | EXPENSE_AMOUNT | EXPENSE_CURRENCY
  | BUDGET_AMOUNT | BUDGET_CURRENCY
  | PAYMENT_TARGET | PAYMENT_CURRENCY
  | PAYMENT_AMOUNT | PAYMENT_FREQUENCY
  | ADD_SAVINGS_AMOUNT | ADD_PAYMENT_AMOUNT
  | ASSET_AMOUNT | ASSET_CURRENCY
  | UPDATE_ASSET_AMOUNT
  | DLG_END
deriving Repr, DecidableEq

/-- `get_goal_amount` (lines 973-980). -/
def get_goal_amount (ud : UserData) (parsed : Option Amount) : DlgState × UserData :=
  match parsed with
  | some q => (DlgState.GOAL_CURRENCY, udInsert ud "goal_amount" (SessionValue.num q))
  | none => (DlgState.GOAL_AMOUNT, ud)

/-- `get_debt_amount` (lines 1004-1011). -/
def get_debt_amount (ud : UserData) (parsed : Option Amount) : DlgState × UserData :=
  match parsed with
  | some q => (DlgState.DEBT_CURRENCY, udInsert ud "debt_amount" (SessionValue.num q))
  | none => (DlgState.DEBT_AMOUNT, ud)

/-- `get_expense_amount` (lines 1251-1258). -/
def get_expense_amount (ud : UserData) (parsed : Option Amount) : DlgState × UserData :=
  match parsed with
  | some q => (DlgState.EXPENSE_CURRENCY, udInsert ud "expense_amount" (SessionValue.num q))
  | none => (DlgState.EXPENSE_AMOUNT, ud)

/-- `get_budget_amount` (lines 1398-1405). -/
def get_budget_amount (ud : UserData) (parsed : Option Amount) : DlgState × UserData :=
  match parsed with
  | some q => (DlgState.BUDGET_CURRENCY, udInsert ud "budget_amount" (SessionValue.num q))
  | none => (DlgState.BUDGET_AMOUNT, ud)

/-- `get_payment_target` (lines 1518-1525). -/
def get_payment_target (ud : UserData) (parsed : Option Amount) : DlgState × UserData :=
  match parsed with
  | some q => (DlgState.PAYMENT_CURRENCY, udInsert ud "payment_target" (SessionValue.num q))
  | none => (DlgState.PAYMENT_TARGET, ud)

/-- `get_payment_amount` (lines 1534-1541). -/
def get_payment_amount (ud : UserData) (parsed : Option Amount) : DlgState × UserData :=
  match parsed with
  | some q => (DlgState.PAYMENT_FREQUENCY, udInsert ud "payment_amount" (SessionValue.num q))
  | none => (DlgState.PAYMENT_AMOUNT, ud)

/-- `get_asset_amount` (lines 1855-1862). -/
def get_asset_amount (ud : UserData) (parsed : Option Amount) : DlgState × UserData :=
  match parsed with
  | some q => (DlgState.ASSET_CURRENCY, udInsert ud "asset_amount" (SessionValue.num q))
  | none => (DlgState.ASSET_AMOUNT, ud)

/-- `get_amount_and_save` (lines 1111-1166) as a state handler: on
`ValueError` stay in ADD_SAVINGS_AMOUNT with everything untouched; on a
parsed amount perform the contribution transaction (or clear the session
when `selected_goal_id` was lost). -/
def get_amount_and_save (db : GoalsDb) (ud : UserData) (parsed : Option Amount)
    (now : String) : DlgState × UserData × GoalsDb × Option GoalAlert :=
  match parsed with
  | none => (DlgState.ADD_SAVINGS_AMOUNT, ud, db, none)
  | some amount =>
    match udLookup ud "selected_goal_id" with
    | some (SessionValue.id goal_id) =>
      let res := logContribution db goal_id amount now
      (DlgState.DLG_END, [], res.1, res.2)
    | _ => (DlgState.DLG_END, [], db, none)

/-- `get_payment_amount_and_save` (lines 1673-1719): INSERT one
`payment_history` row and UPDATE the payment's `current_amount` in one
commit (FK enforced as for savings). -/
def get_payment_amount_and_save (db : PaymentsDb) (ud : UserData)
    (parsed : Option Amount) (now : String) : DlgState × UserData × PaymentsDb :=
  match parsed with
  | none => (DlgState.ADD_PAYMENT_AMOUNT, ud, db)
  | some amount =>
    match udLookup ud "selected_payment_id" with
    | some (SessionValue.id payment_id) =>
      if db.payments.any (fun p => decide (p.id = payment_id)) then
        let row : PaymentHistoryEntry :=
          { id := db.nextHistoryId, payment_id := payment_id, amount := amount,
            paid_at := now }
        (DlgState.DLG_END, [],
         { db with history := db.history ++ [row],
                   payments := db.payments.map (fun p =>
                     if p.id = payment_id then
                       { p with current_amount := p.current_amount + amount }
                     else p),
                   nextHistoryId := db.nextHistoryId + 1 })
      else (DlgState.DLG_END, [], db)
    | _ => (DlgState.DLG_END, [], db)

/-- `process_asset_update` (lines 1996-2083).  The sign prefix selects the
operation and the rest goes through `float(...)`; `parsed` is the outcome
of that whole parse (`none` = `ValueError`).  Non-positive deltas
re-prompt in place; a lost or stale selection clears the session. -/
def process_asset_update (db : AssetsDb) (ud : UserData)
    (parsed : Option (String × Amount)) (now : String) :
    DlgState × UserData × AssetsDb :=
  match parsed with
  | none => (DlgState.UPDATE_ASSET_AMOUNT, ud, db)
  | some (operation, amount) =>
    match udLookup ud "selected_asset_id" with
    | some (SessionValue.id asset_id) =>
      if amount ≤ 0 then (DlgState.UPDATE_ASSET_AMOUNT, ud, db)
      else
        match db.rows.find? (fun a => decide (a.id = asset_id)) with
        | none => (DlgState.DLG_END, [], db)
        | some _ =>
          (DlgState.DLG_END, [], (update_asset_amount db asset_id amount operation now).1)
    | _ => (DlgState.DLG_END, [], db)

/-! ## Concrete fixtures used by witnesses and counterexamples -/

/-- Row constructor for `goals` (positional, for concrete stores). -/
def mkGoal (id u : Nat) (name : String) (target current : Amount)
    (currency ty : String) (notified : Bool) : Goal :=
  { id := id, user_id := u, name := name, target_amount := target,
    current_amount := current, currency := currency, type := ty,
    notified_90_percent := notified }

/-- Fresh goal for the C1 witness (spec §8 example: goal of 1000 USD, log
300 then 250, expect 550 and two ledger rows). -/
def c1db : GoalsDb :=
  { goals := [mkGoal 1 1 "Vacation" 1000 0 "USD" "goal" false],
    savings := [], nextGoalId := 2, nextSavingId := 1 }

/-- Store holding owner 1's Target "Car", for the C2 counterexample. -/
def c2db : GoalsDb :=
  { goals := [mkGoal 1 1 "Car" 1000 0 "USD" "goal" false],
    savings := [], nextGoalId := 2, nextSavingId := 1 }

/-- Row constructor for `payments` (positional, for concrete stores). -/
def mkPayment (id u : Nat) (name : String) (target current : Amount)
    (currency : String) (pamount : Amount) (freq recipient : String) : Payment :=
  { id := id, user_id := u, name := name, target_amount := target,
    current_amount := current, currency := currency, payment_amount := pamount,
    payment_frequency := freq, recipient := recipient }

/-- Empty payments store for witnesses. -/
def emptyPaymentsDb : PaymentsDb :=
  { payments := [], history := [], nextPaymentId := 1, nextHistoryId := 1 }

/-- Goal at 0 of 1000 with the one-shot flag unset, for the C3
counterexample (a single contribution of 1000 jumps straight to 100%). -/
def c3db : GoalsDb :=
  { goals := [mkGoal 1 1 "Dream" 1000 0 "USD" "goal" false],
    savings := [], nextGoalId := 2, nextSavingId := 1 }

/-- Goal at 899 of 1000, flag unset (spec example 899→900). -/
def c3wdb : GoalsDb :=
  { goals := [mkGoal 1 1 "Dream" 1000 899 "USD" "goal" false],
    savings := [], nextGoalId := 2, nextSavingId := 1 }

/-- Goal at 900 of 1000 with the flag already set (spec example 900→950). -/
def c3wdb2 : GoalsDb :=
  { goals := [mkGoal 1 1 "Dream" 1000 900 "USD" "goal" true],
    savings := [], nextGoalId := 2, nextSavingId := 1 }

/-- Single recorded expense — the C4 failing input. -/
def c4expense : Expense :=
  { id := 1, user_id := 1, amount := 10, currency := "USD", reason := "coffee",
    category := "food", created_at := "2026-10-12 09:00:00" }

/-- Fresh 100-USD monthly "food" budget (spec §8 example). -/
def c6budget : Budget :=
  { id := 1, user_id := 1, category := "food", amount := 100, currency := "USD",
    period := "monthly", current_spent := 0, created_at := "2026-10-01 00:00:00",
    updated_at := "2026-10-01 00:00:00" }

/-- Budget table after the first 40-USD food expense. -/
def c6AfterOne : List Budget :=
  (update_budget_spending [c6budget] 1 "food" 40 "USD" "2026-10-02 00:00:00").1

/-- Budget table after the second 40-USD food expense (spent = 80). -/
def c6AfterTwo : List Budget :=
  (update_budget_spending c6AfterOne 1 "food" 40 "USD" "2026-10-03 00:00:00").1

/-- Budget table after the third 40-USD food expense (spent = 120). -/
def c6AfterThree : List Budget :=
  (update_budget_spending c6AfterTwo 1 "food" 40 "USD" "2026-10-04 00:00:00").1

/-- Row constructor for `assets` (positional, for concrete stores). -/
def mkAsset (id u : Nat) (name : String) (amount : Amount)
    (currency ty created updated : String) : Asset :=
  { id := id, user_id := u, name := name, amount := amount, currency := currency,
    asset_type := ty, created_at := created, updated_at := updated }

/-- Row constructor for `expenses` (positional). -/
def mkExpense (id u : Nat) (amount : Amount)
    (currency reason category created : String) : Expense :=
  { id := id, user_id := u, amount := amount, currency := currency,
    reason := reason, category := category, created_at := created }

/-- Empty assets store for the C7 witness. -/
def emptyAssetsDb : AssetsDb := { rows := [], nextId := 1 }

/-- Store holding one "Cash"/USD asset at 250, for the C7 delta witness. -/
def c7cash : AssetsDb :=
  { rows := [mkAsset 1 1 "Cash" 250 "USD" "cash" "2026-10-01 00:00:00"
      "2026-10-01 00:00:00"],
    nextId := 2 }

/-- Expense store with only the fresh food budget, for the C8 witness. -/
def c8db : ExpensesDb := { expenses := [], budgets := [c6budget], nextExpenseId := 1 }

/-- Budget store holding one configured budget, for the C10 witness. -/
def c10db : BudgetsDb := { rows := [c6budget], nextId := 2 }

/-! ## Helper lemmas -/

/-- `find?` commutes with mapping a function that does not change the
predicate's verdict. -/
theorem find?_map_stable {α : Type} (p : α → Bool) (f : α → α)
    (hf : ∀ a, p (f a) = p a) (l : List α) :
    (l.map f).find? p = (l.find? p).map f := by
  induction l with
  | nil => rfl
  | cons a l ih =>
    cases h : p a with
    | true => simp [List.find?_cons, hf, h]
    | false => simp [List.find?_cons, hf, h, ih]

/-- Fetching a goal after the aggregate UPDATE of `applyContribution`. -/
theorem get_goal_by_id_applyContribution (db : GoalsDb) (gid : Nat) (a : Amount)
    (t : String) :
    get_goal_by_id (applyContribution db gid a t) gid
      = (get_goal_by_id db gid).map (fun g =>
          if g.id = gid then { g with current_amount := g.current_amount + a } else g) := by
  unfold get_goal_by_id applyContribution
  exact find?_map_stable _ _ (fun x => by by_cases hx : x.id = gid <;> simp [hx]) _

/-- Fetching a goal after the one-shot flag UPDATE. -/
theorem get_goal_by_id_setNotifiedFlag (db : GoalsDb) (gid : Nat) :
    get_goal_by_id (setNotifiedFlag db gid) gid
      = (get_goal_by_id db gid).map (fun g =>
          if g.id = gid then { g with notified_90_percent := true } else g) := by
  unfold get_goal_by_id setNotifiedFlag
  exact find?_map_stable _ _ (fun x => by by_cases hx : x.id = gid <;> simp [hx]) _

/-- The ledger of a goal after `applyContribution` gains exactly the new
row's amount. -/
theorem ledgerAmounts_applyContribution (db : GoalsDb) (gid : Nat) (a : Amount)
    (t : String) :
    ledgerAmounts (applyContribution db gid a t) gid = ledgerAmounts db gid ++ [a] := by
  unfold ledgerAmounts applyContribution
  simp [List.filter_append]

/-- `setNotifiedFlag` does not touch the ledger. -/
theorem ledgerAmounts_setNotifiedFlag (db : GoalsDb) (gid gid' : Nat) :
    ledgerAmounts (setNotifiedFlag db gid') gid = ledgerAmounts db gid := rfl

/-- One successful contribution appends exactly one ledger row holding the
amount and raises the aggregate by the same amount — whatever alert branch
runs afterwards. -/
theorem logContribution_step (db : GoalsDb) (gid : Nat) (a : Amount) (t : String)
    (c : Amount) (hc : current_amount_of db gid = some c) :
    current_amount_of (logContribution db gid a t).1 gid = some (c + a) ∧
    ledgerAmounts (logContribution db gid a t).1 gid = ledgerAmounts db gid ++ [a] := by
  obtain ⟨g, hg, hgc⟩ := Option.map_eq_some'.mp hc
  have hg' : db.goals.find? (fun x => decide (x.id = gid)) = some g := hg
  have hpg : (fun x : Goal => decide (x.id = gid)) g = true :=
    @List.find?_some Goal (fun x => decide (x.id = gid)) g db.goals hg'
  have hgid : g.id = gid := of_decide_eq_true hpg
  have hany : db.goals.any (fun x => decide (x.id = gid)) = true :=
    List.any_eq_true.mpr ⟨g, List.mem_of_find?_eq_some hg', hpg⟩
  have hfind1 : get_goal_by_id (applyContribution db gid a t) gid
      = some { g with current_amount := g.current_amount + a } := by
    rw [get_goal_by_id_applyContribution, hg]
    simp [hgid]
  have hcur1 : current_amount_of (applyContribution db gid a t) gid = some (c + a) := by
    unfold current_amount_of
    rw [hfind1]
    simp [hgc]
  have hcur2 : current_amount_of (setNotifiedFlag (applyContribution db gid a t) gid) gid
      = some (c + a) := by
    unfold current_amount_of
    rw [get_goal_by_id_setNotifiedFlag, hfind1]
    simp [hgid, hgc]
  unfold logContribution
  simp only [hany, if_true]
  rw [hfind1]
  dsimp only
  split_ifs <;>
    simp_all [ledgerAmounts_applyContribution, ledgerAmounts_setNotifiedFlag]

/-! ## C1: the ledger invariant -/

/-- C1: for every Target, after any sequence of successful contribution
operations through the 'add' dialogue, the stored `current_amount` equals
the sum of its ledger entries' amounts; moreover each single successful
contribution appends exactly one ledger row and raises `current_amount`
by the same amount, the two writes forming one atomic state transition
(one `conn.commit()`). -/
theorem contribution_ledger_invariant (db : GoalsDb) (gid : Nat)
    (entries : List (Amount × String))
    (h : current_amount_of db gid = some (ledgerSum db gid)) :
    (current_amount_of (contributeAll db gid entries) gid
        = some (ledgerSum (contributeAll db gid entries) gid)) ∧
    (∀ (a : Amount) (t : String),
      current_amount_of (logContribution db gid a t).1 gid
          = some (ledgerSum db gid + a) ∧
      ledgerAmounts (logContribution db gid a t).1 gid
          = ledgerAmounts db gid ++ [a]) := by
  constructor
  · induction entries generalizing db with
    | nil => simpa [contributeAll] using h
    | cons e es ih =>
      have hstep := logContribution_step db gid e.1 e.2 _ h
      have hinv : current_amount_of (logContribution db gid e.1 e.2).1 gid
          = some (ledgerSum (logContribution db gid e.1 e.2).1 gid) := by
        rw [hstep.1]
        unfold ledgerSum
        rw [hstep.2]
        simp [ledgerSum]
      have hfold : contributeAll db gid (e :: es)
          = contributeAll (logContribution db gid e.1 e.2).1 gid es := rfl
      rw [hfold]
      exact ih _ hinv
  · intro a t
    exact logContribution_step db gid a t _ h

theorem contribution_ledger_invariant_witness :
    current_amount_of c1db 1 = some (ledgerSum c1db 1) ∧
    current_amount_of
        (contributeAll c1db 1 [(300, "2026-10-01 10:00:00"), (250, "2026-10-02 10:00:00")]) 1
      = some (ledgerSum
          (contributeAll c1db 1 [(300, "2026-10-01 10:00:00"), (250, "2026-10-02 10:00:00")]) 1) := by
  have hinv : current_amount_of c1db 1 = some (ledgerSum c1db 1) := by
    simp [c1db, mkGoal, current_amount_of, get_goal_by_id, ledgerSum, ledgerAmounts,
      List.find?]
  exact ⟨hinv,
    (contribution_ledger_invariant c1db 1
      [(300, "2026-10-01 10:00:00"), (250, "2026-10-02 10:00:00")] hinv).1⟩

/-! ## C2: name uniqueness is global, not per owner -/

/-- C2 counterexample: owner 2 creating a Target named "Car" — a name used
only by the different owner 1 — is REJECTED with the conflict outcome and
the store is unchanged, because `goals.name` is UNIQUE table-wide; the
claim's "creating one whose name is used only by a different owner
succeeds" is false. -/
theorem target_name_cross_owner_rejected :
    get_goal_currency_and_save c2db 2 "Car" 500 "USD" = (c2db, SaveOutcome.conflict) := by
  rfl

/-- C2 (amended): Target and Payment names are unique across the whole
store (not per owner): an insert whose name is already used by ANY owner
is rejected with the conflict outcome and leaves the store unmodified,
while an insert with a name used by nobody succeeds and appends exactly
the new row. -/
theorem name_uniqueness_global (db : GoalsDb) (pdb : PaymentsDb) (u : Nat)
    (name recipient : String) (target pamount : Amount) (currency freq : String) :
    ((∃ g ∈ db.goals, g.name = name) →
      get_goal_currency_and_save db u name target currency
        = (db, SaveOutcome.conflict)) ∧
    ((∀ g ∈ db.goals, g.name ≠ name) →
      get_goal_currency_and_save db u name target currency
        = ({ db with
              goals := db.goals ++ [mkGoal db.nextGoalId u name target 0 currency "goal" false],
              nextGoalId := db.nextGoalId + 1 },
           SaveOutcome.success)) ∧
    ((∃ p ∈ pdb.payments, p.name = name) →
      save_payment pdb u name recipient target currency pamount freq
        = (pdb, SaveOutcome.conflict)) ∧
    ((∀ p ∈ pdb.payments, p.name ≠ name) →
      save_payment pdb u name recipient target currency pamount freq
        = ({ pdb with
              payments := pdb.payments ++
                [mkPayment pdb.nextPaymentId u name target 0 currency pamount
                  (if freq = "weekly" ∨ freq = "monthly" ∨ freq = "quarterly"
                      ∨ freq = "yearly" then freq else "monthly") recipient],
              nextPaymentId := pdb.nextPaymentId + 1 },
           SaveOutcome.success)) := by
  refine ⟨?_, ?_, ?_, ?_⟩
  · intro ⟨g, hmem, hname⟩
    have : db.goals.any (fun g => decide (g.name = name)) = true :=
      List.any_eq_true.mpr ⟨g, hmem, decide_eq_true hname⟩
    simp [get_goal_currency_and_save, goalsInsert, this]
  · intro hnone
    have : db.goals.any (fun g => decide (g.name = name)) = false := by
      rw [List.any_eq_false]
      intro g hmem
      simp [hnone g hmem]
    simp [get_goal_currency_and_save, goalsInsert, this, mkGoal]
  · intro ⟨p, hmem, hname⟩
    have : pdb.payments.any (fun p => decide (p.name = name)) = true :=
      List.any_eq_true.mpr ⟨p, hmem, decide_eq_true hname⟩
    simp [save_payment, paymentsInsert, this]
  · intro hnone
    have hany : pdb.payments.any (fun p => decide (p.name = name)) = false := by
      rw [List.any_eq_false]
      intro p hmem
      simp [hnone p hmem]
    simp [save_payment, paymentsInsert, hany, mkPayment]

theorem name_uniqueness_global_witness :
    get_goal_currency_and_save c2db 2 "Car" 500 "USD" = (c2db, SaveOutcome.conflict) ∧
    get_goal_currency_and_save c2db 2 "Bike" 500 "USD"
      = ({ c2db with
            goals := c2db.goals ++ [mkGoal c2db.nextGoalId 2 "Bike" 500 0 "USD" "goal" false],
            nextGoalId := c2db.nextGoalId + 1 },
         SaveOutcome.success) := by
  constructor
  · exact (name_uniqueness_global c2db emptyPaymentsDb 2 "Car" "r" 500 0 "USD" "monthly").1
      ⟨mkGoal 1 1 "Car" 1000 0 "USD" "goal" false, by simp [c2db], rfl⟩
  · exact (name_uniqueness_global c2db emptyPaymentsDb 2 "Bike" "r" 500 0 "USD" "monthly").2.1
      (by intro g hmem; simp [c2db] at hmem; simp [hmem, mkGoal])

/-! ## C3: the one-shot "almost there" alert -/

/-- C3 counterexample: a contribution of 1000 to a fresh 1000-target goal
brings progress to 100% — which is "at least 90" with the one-shot flag
unset — yet the handler emits `reached`, not `almost there`, and leaves
`notified_90_percent` unset: the ≥ 100 branch of the elif chain shadows
the 90% branch, so the claim's "whenever ... at least 90 while the flag is
not yet set, the 'almost there' alert is emitted and the flag is set" is
false. -/
theorem almost_there_shadowed_at_100 :
    90 ≤ progress_percent (mkGoal 1 1 "Dream" 1000 (0 + 1000) "USD" "goal" false) ∧
    (logContribution c3db 1 1000 "2026-01-01 00:00:00").2 = some GoalAlert.reached ∧
    (logContribution c3db 1 1000 "2026-01-01 00:00:00").2 ≠ some GoalAlert.almostThere ∧
    (get_goal_by_id (logContribution c3db 1 1000 "2026-01-01 00:00:00").1 1).map
        Goal.notified_90_percent = some false := by
  refine ⟨by norm_num [progress_percent, mkGoal], ?_⟩
  have h1 : (logContribution c3db 1 1000 "2026-01-01 00:00:00")
      = (applyContribution c3db 1 1000 "2026-01-01 00:00:00", some GoalAlert.reached) := by
    unfold logContribution
    rw [if_pos (by simp [c3db, mkGoal])]
    dsimp only
    have hfind : get_goal_by_id (applyContribution c3db 1 1000 "2026-01-01 00:00:00") 1
        = some (mkGoal 1 1 "Dream" 1000 (0 + 1000) "USD" "goal" false) := by
      rw [get_goal_by_id_applyContribution]
      simp [c3db, mkGoal, get_goal_by_id, List.find?]
    rw [hfind]
    dsimp only
    rw [if_pos]
    constructor
    · rfl
    · norm_num [progress_percent, mkGoal]
  rw [h1]
  refine ⟨rfl, by simp, ?_⟩
  rw [get_goal_by_id_applyContribution]
  simp [c3db, mkGoal, get_goal_by_id, List.find?]

/-- C3 (amended): with progress measured on the goal as re-fetched after
the contribution, a goal-kind Target alerts as follows: progress in
[90, 100) with the one-shot flag unset emits `almost there` and sets the
flag permanently; once the flag is set `almost there` never fires again;
progress at or past 100 always emits the repeatable `reached` alert (so a
jump from below 90 straight past 100 emits `reached` only — the original
claim's "whenever at least 90" holds only below 100). -/
theorem goal_alert_rules (db : GoalsDb) (gid : Nat) (a : Amount) (t : String)
    (g : Goal) (hg : get_goal_by_id db gid = some g) (hty : g.type = "goal") :
    (g.notified_90_percent = false →
      90 ≤ progress_percent { g with current_amount := g.current_amount + a } →
      progress_percent { g with current_amount := g.current_amount + a } < 100 →
      (logContribution db gid a t).2 = some GoalAlert.almostThere ∧
      (get_goal_by_id (logContribution db gid a t).1 gid).map Goal.notified_90_percent
        = some true) ∧
    (g.notified_90_percent = true →
      (logContribution db gid a t).2 ≠ some GoalAlert.almostThere) ∧
    (100 ≤ progress_percent { g with current_amount := g.current_amount + a } →
      (logContribution db gid a t).2 = some GoalAlert.reached) := by
  have hg' : db.goals.find? (fun x => decide (x.id = gid)) = some g := hg
  have hpg : (fun x : Goal => decide (x.id = gid)) g = true :=
    @List.find?_some Goal (fun x => decide (x.id = gid)) g db.goals hg'
  have hgid : g.id = gid := of_decide_eq_true hpg
  have hany : db.goals.any (fun x => decide (x.id = gid)) = true :=
    List.any_eq_true.mpr ⟨g, List.mem_of_find?_eq_some hg', hpg⟩
  have hfind1 : get_goal_by_id (applyContribution db gid a t) gid
      = some { g with current_amount := g.current_amount + a } := by
    rw [get_goal_by_id_applyContribution, hg]
    simp [hgid]
  unfold logContribution
  simp only [hany, if_true]
  rw [hfind1]
  dsimp only
  refine ⟨?_, ?_, ?_⟩
  · intro hflag h90 h100
    rw [if_neg (by rintro ⟨-, hc⟩; exact absurd hc (not_le.mpr h100)), if_pos ⟨hty, h90, hflag⟩]
    refine ⟨rfl, ?_⟩
    rw [get_goal_by_id_setNotifiedFlag, hfind1]
    simp [hgid]
  · intro hflag
    split_ifs with h1 h2 h3 <;> simp_all
  · intro h100
    rw [if_pos ⟨hty, h100⟩]

theorem goal_alert_rules_witness :
    ((logContribution c3wdb 1 1 "2026-02-01 00:00:00").2 = some GoalAlert.almostThere ∧
     (get_goal_by_id (logContribution c3wdb 1 1 "2026-02-01 00:00:00").1 1).map
         Goal.notified_90_percent = some true) ∧
    (logContribution c3wdb2 1 50 "2026-02-02 00:00:00").2 ≠ some GoalAlert.almostThere := by
  constructor
  · exact (goal_alert_rules c3wdb 1 1 "2026-02-01 00:00:00"
        (mkGoal 1 1 "Dream" 1000 899 "USD" "goal" false)
        (by simp [c3wdb, get_goal_by_id, mkGoal, List.find?]) rfl).1
      rfl (by norm_num [progress_percent, mkGoal]) (by norm_num [progress_percent, mkGoal])
  · exact (goal_alert_rules c3wdb2 1 50 "2026-02-02 00:00:00"
        (mkGoal 1 1 "Dream" 1000 900 "USD" "goal" true)
        (by simp [c3wdb2, get_goal_by_id, mkGoal, List.find?]) rfl).2.1 rfl

/-! ## C4: the expense report destructures 4-column rows into 5 targets -/

/-- Every result of `get_expenses_by_period` is a list of 4-column rows. -/
theorem get_expenses_by_period_shape (expenses : List Expense) (u : Nat)
    (period td wa ma : String) :
    ∃ l' : List Expense, get_expenses_by_period expenses u period td wa ma
      = l'.map expenseSelectRow := by
  unfold get_expenses_by_period
  exact ⟨_, rfl⟩

/-- C4 (code bug): `get_expenses_by_period` SELECTs four columns while
`get_expense_totals_by_currency` (and `fmt_expense_report`) unpack each
row into five targets, so for EVERY user and period whose window holds at
least one expense the totals computation raises `ValueError` instead of
returning per-currency sums; in particular it raises for a user with one
recorded expense and period 'all'. -/
theorem expense_totals_unpack_error :
    (∀ (expenses : List Expense) (u : Nat) (period td wa ma : String),
      get_expenses_by_period expenses u period td wa ma ≠ [] →
      get_expense_totals_by_currency expenses u period td wa ma
        = Except.error "ValueError: not enough values to unpack (expected 5)") ∧
    get_expense_totals_by_currency [c4expense] 1 "all" "2026-10-12" "2026-10-05" "2026-09-12"
      = Except.error "ValueError: not enough values to unpack (expected 5)" := by
  have hgen : ∀ (expenses : List Expense) (u : Nat) (period td wa ma : String),
      get_expenses_by_period expenses u period td wa ma ≠ [] →
      get_expense_totals_by_currency expenses u period td wa ma
        = Except.error "ValueError: not enough values to unpack (expected 5)" := by
    intro expenses u period td wa ma hne
    obtain ⟨l', hl⟩ := get_expenses_by_period_shape expenses u period td wa ma
    unfold get_expense_totals_by_currency
    rw [hl] at hne ⊢
    cases l' with
    | nil => simp at hne
    | cons e es => rfl
  refine ⟨hgen, hgen [c4expense] 1 "all" _ _ _ ?_⟩
  simp [get_expenses_by_period, c4expense, List.mergeSort_singleton]

theorem expense_totals_unpack_error_witness :
    get_expenses_by_period [c4expense] 1 "all" "2026-10-12" "2026-10-05" "2026-09-12" ≠ [] ∧
    get_expense_totals_by_currency [c4expense] 1 "all" "2026-10-12" "2026-10-05" "2026-09-12"
      = Except.error "ValueError: not enough values to unpack (expected 5)" := by
  have hne : get_expenses_by_period [c4expense] 1 "all" "2026-10-12" "2026-10-05"
      "2026-09-12" ≠ [] := by
    simp [get_expenses_by_period, c4expense, List.mergeSort_singleton]
  exact ⟨hne, expense_totals_unpack_error.1 [c4expense] 1 "all" _ _ _ hne⟩

/-! ## C5: the paginated selector -/

/-- C5: for every item list, prefix and page index, the paginated keyboard
renders exactly the spec slice `items[page*5 : page*5+5]` (one row per
item), and appends a navigation row containing the Previous button iff
`page > 0` and the Next button iff `(page+1)*5 < len(items)` — the row is
omitted entirely when neither button is present (page size is the
program's constant `ITEMS_PER_PAGE = 5`). -/
theorem generate_paginated_keyboard_correct (items : List Goal) (pre : String) (page : Nat) :
    generate_paginated_keyboard items pre page =
      (spec_visibleSlice items ITEMS_PER_PAGE page).map (fun item => [goalButton pre item])
        ++ (if spec_hasPrev page ∨ spec_hasNext items.length ITEMS_PER_PAGE page then
              [(if spec_hasPrev page then [navPrevButton pre page] else [])
                ++ (if spec_hasNext items.length ITEMS_PER_PAGE page then [navNextButton pre page]
                    else [])]
            else []) := by
  unfold generate_paginated_keyboard spec_visibleSlice spec_hasPrev spec_hasNext pySlice
  have h5 : page * ITEMS_PER_PAGE + ITEMS_PER_PAGE = (page + 1) * ITEMS_PER_PAGE := by ring
  by_cases hp : page > 0 <;>
    by_cases hn : (page + 1) * ITEMS_PER_PAGE < items.length <;>
      simp [h5, hp, hn, Nat.add_sub_cancel_left] <;>
        congr 1 <;> omega

/-! ## C6: budget alert thresholds -/

/-- C6 counterexample: after the SECOND 40-USD food expense against the
100-USD budget the spend sits at exactly 80% and `check_budget_alerts`
returns the warning alert — so "no alert on the first two" is false (the
claim itself concedes that 80% exactly triggers 'warning'). -/
theorem budget_warning_fires_at_80 :
    check_budget_alerts c6AfterTwo 1 "food" "USD"
      = some (BudgetAlert.warning 80 20) ∧
    check_budget_alerts c6AfterTwo 1 "food" "USD" ≠ none := by
  have h : check_budget_alerts c6AfterTwo 1 "food" "USD"
      = some (BudgetAlert.warning 80 20) := by
    norm_num [c6AfterTwo, c6AfterOne, c6budget, update_budget_spending, budgetMatches,
      check_budget_alerts, budgetPct, List.find?]
  exact ⟨h, by simp [h]⟩

/-- C6 (amended): budget alert evaluation is deterministic in the
spent/limit percentage — ≥ 100 yields 'exceeded', ≥ 80 and < 100 yields
'warning' (80% exactly triggers 'warning'), < 80 yields no alert, and a
non-positive limit counts as 0% and never alerts; no alert is
deduplicated.  In the spec's example the three 40-USD food expenses
against a 100-USD monthly budget yield: no alert on the first (40%), the
'warning' alert on the second (exactly 80%), and 'exceeded' on the third
(120%). -/
theorem check_budget_alerts_rules (budgets : List Budget) (u : Nat) (c cur : String) :
    (∀ b, budgets.find? (budgetMatches u c cur) = some b →
      (100 ≤ budgetPct b →
        check_budget_alerts budgets u c cur
          = some (BudgetAlert.exceeded (budgetPct b - 100))) ∧
      (80 ≤ budgetPct b → budgetPct b < 100 →
        check_budget_alerts budgets u c cur
          = some (BudgetAlert.warning (budgetPct b) (b.amount - b.current_spent))) ∧
      (budgetPct b < 80 → check_budget_alerts budgets u c cur = none) ∧
      (b.amount ≤ 0 → check_budget_alerts budgets u c cur = none)) ∧
    (budgets.find? (budgetMatches u c cur) = none →
      check_budget_alerts budgets u c cur = none) ∧
    (check_budget_alerts c6AfterOne 1 "food" "USD" = none ∧
     check_budget_alerts c6AfterTwo 1 "food" "USD" = some (BudgetAlert.warning 80 20) ∧
     check_budget_alerts c6AfterThree 1 "food" "USD"
       = some (BudgetAlert.exceeded 20)) := by
  refine ⟨?_, ?_, ?_, ?_, ?_⟩
  · intro b hb
    unfold check_budget_alerts
    rw [hb]
    dsimp only
    refine ⟨?_, ?_, ?_, ?_⟩
    · intro h100
      rw [if_pos h100]
    · intro h80 h100
      rw [if_neg (not_le.mpr h100), if_pos h80]
    · intro h80
      rw [if_neg (not_le.mpr (by linarith)), if_neg (not_le.mpr h80)]
    · intro hle
      have h0 : budgetPct b = 0 := by
        unfold budgetPct
        rw [if_neg (not_lt.mpr hle)]
      rw [if_neg (by rw [h0]; norm_num), if_neg (by rw [h0]; norm_num)]
  · intro hnone
    unfold check_budget_alerts
    rw [hnone]
  · norm_num [c6AfterOne, c6budget, update_budget_spending, budgetMatches,
      check_budget_alerts, budgetPct, List.find?]
  · norm_num [c6AfterTwo, c6AfterOne, c6budget, update_budget_spending, budgetMatches,
      check_budget_alerts, budgetPct, List.find?]
  · norm_num [c6AfterThree, c6AfterTwo, c6AfterOne, c6budget, update_budget_spending,
      budgetMatches, check_budget_alerts, budgetPct, List.find?]

theorem check_budget_alerts_rules_witness :
    check_budget_alerts [c6budget] 1 "food" "USD" = none := by
  refine ((check_budget_alerts_rules [c6budget] 1 "food" "USD").1 c6budget ?_).2.2.1 ?_
  · simp [c6budget, budgetMatches, List.find?]
  · norm_num [budgetPct, c6budget]

/-! ## C7: asset upsert-by-identity and the additive delta flow -/

/-- C7: creating an asset whose (owner, name, currency) is already present
updates the existing row instead of inserting: starting from a store with
no such row, two successive `save_asset` calls leave EXACTLY ONE matching
row whose amount is the second call's amount, and the store has gained
exactly one row; while `update_asset_amount` is additive — `add` yields
`old + d`, `subtract` yields `old - d` with no floor, so the balance may
go negative. -/
theorem save_asset_upsert_and_delta (db : AssetsDb) (u : Nat) (name : String)
    (a1 a2 : Amount) (currency ty1 ty2 t1 t2 : String)
    (h : db.rows.filter (assetMatches u name currency) = []) :
    ((save_asset (save_asset db u name a1 currency ty1 t1) u name a2 currency ty2 t2).rows.filter
        (assetMatches u name currency)).map Asset.amount = [a2] ∧
    (save_asset (save_asset db u name a1 currency ty1 t1) u name a2 currency ty2 t2).rows.length
      = db.rows.length + 1 ∧
    (∀ (adb : AssetsDb) (asset_id : Nat) (d old : Amount) (now : String),
      assetAmount adb asset_id = some old →
      assetAmount (update_asset_amount adb asset_id d "add" now).1 asset_id
        = some (old + d) ∧
      assetAmount (update_asset_amount adb asset_id d "subtract" now).1 asset_id
        = some (old - d)) := by
  have hfind : db.rows.find? (assetMatches u name currency) = none := by
    rw [List.find?_eq_none]
    intro x hx
    have hx' := List.filter_eq_nil_iff.mp h x hx
    simpa using hx'
  have hmatch1 : assetMatches u name currency
      (mkAsset db.nextId u name a1 currency ty1 t1 t1) = true := by
    simp [assetMatches, mkAsset]
  have hdb1 : save_asset db u name a1 currency ty1 t1
      = { rows := db.rows ++ [mkAsset db.nextId u name a1 currency ty1 t1 t1],
          nextId := db.nextId + 1 } := by
    unfold save_asset
    rw [hfind]
    rfl
  have hfind2 : (db.rows ++ [mkAsset db.nextId u name a1 currency ty1 t1 t1]).find?
      (assetMatches u name currency)
      = some (mkAsset db.nextId u name a1 currency ty1 t1 t1) := by
    rw [List.find?_append, hfind]
    simp [List.find?_cons, hmatch1]
  have hstable : ∀ x : Asset,
      assetMatches u name currency
          (if x.id = (mkAsset db.nextId u name a1 currency ty1 t1 t1).id then
            { x with amount := a2, updated_at := t2 } else x)
        = assetMatches u name currency x := by
    intro x
    by_cases hx : x.id = (mkAsset db.nextId u name a1 currency ty1 t1 t1).id <;>
      simp [hx, assetMatches]
  have hdb2 : save_asset (save_asset db u name a1 currency ty1 t1) u name a2 currency ty2 t2
      = { rows := (db.rows ++ [mkAsset db.nextId u name a1 currency ty1 t1 t1]).map
            (fun a => if a.id = (mkAsset db.nextId u name a1 currency ty1 t1 t1).id then
              { a with amount := a2, updated_at := t2 } else a),
          nextId := db.nextId + 1 } := by
    rw [hdb1]
    unfold save_asset
    rw [hfind2]
  refine ⟨?_, ?_, ?_⟩
  · rw [hdb2]
    dsimp only
    rw [List.filter_map]
    simp only [Function.comp_def]
    rw [List.filter_congr (fun x _ => hstable x), List.filter_append, h]
    simp [List.filter, hmatch1]
  · rw [hdb2]
    simp
  · intro adb asset_id d old now hold
    obtain ⟨a0, ha0, haold⟩ := Option.map_eq_some'.mp hold
    have hpa : (fun a : Asset => decide (a.id = asset_id)) a0 = true :=
      @List.find?_some Asset (fun a => decide (a.id = asset_id)) a0 adb.rows ha0
    have haid : a0.id = asset_id := of_decide_eq_true hpa
    constructor
    · unfold update_asset_amount
      rw [if_pos rfl]
      unfold assetAmount
      dsimp only
      rw [find?_map_stable _ _
        (fun x => by by_cases hx : x.id = asset_id <;> simp [hx]) _, ha0]
      simp [haid, haold]
    · unfold update_asset_amount
      rw [if_neg (by simp), if_pos rfl]
      unfold assetAmount
      dsimp only
      rw [find?_map_stable _ _
        (fun x => by by_cases hx : x.id = asset_id <;> simp [hx]) _, ha0]
      simp [haid, haold]

theorem save_asset_upsert_and_delta_witness :
    ((save_asset (save_asset emptyAssetsDb 1 "Cash" 100 "USD" "cash" "2026-10-01 00:00:00")
          1 "Cash" 250 "USD" "cash" "2026-10-02 00:00:00").rows.filter
        (assetMatches 1 "Cash" "USD")).map Asset.amount = [250] ∧
    assetAmount (update_asset_amount c7cash 1 50 "add" "2026-10-03 00:00:00").1 1
      = some (250 + 50) ∧
    assetAmount (update_asset_amount c7cash 1 1000 "subtract" "2026-10-03 00:00:00").1 1
      = some (250 - 1000) ∧
    (250 : Amount) - 1000 < 0 := by
  have hmain := save_asset_upsert_and_delta emptyAssetsDb 1 "Cash" 100 250 "USD"
    "cash" "cash" "2026-10-01 00:00:00" "2026-10-02 00:00:00" rfl
  have hdelta := hmain.2.2 c7cash 1 1000 250 "2026-10-03 00:00:00"
    (by simp [c7cash, mkAsset, assetAmount, List.find?])
  have hdelta2 := hmain.2.2 c7cash 1 50 250 "2026-10-03 00:00:00"
    (by simp [c7cash, mkAsset, assetAmount, List.find?])
  exact ⟨hmain.1, hdelta2.1, hdelta.2, by norm_num⟩

/-! ## C8: recording an expense without a matching budget is a no-op on
budgets -/

/-- C8: `save_expense` always inserts the expense row; when no budget
matches the exact (owner, category, currency) triple the budget update is
a no-op that reports no match (False) and no budget row changes; when a
budget matches, its `current_spent` rises by exactly the expense amount
and the update reports True; budgets that do not match are never
modified. -/
theorem save_expense_budget_spend (db : ExpensesDb) (u : Nat) (amount : Amount)
    (currency reason category now : String) :
    (save_expense db u amount currency reason category now).1.expenses
      = db.expenses ++ [mkExpense db.nextExpenseId u amount currency reason category now] ∧
    (db.budgets.find? (budgetMatches u category currency) = none →
      (save_expense db u amount currency reason category now).1.budgets = db.budgets ∧
      (save_expense db u amount currency reason category now).2.1 = false) ∧
    (∀ b, db.budgets.find? (budgetMatches u category currency) = some b →
      (save_expense db u amount currency reason category now).1.budgets.find?
          (budgetMatches u category currency)
        = some { b with current_spent := b.current_spent + amount, updated_at := now } ∧
      (save_expense db u amount currency reason category now).2.1 = true) ∧
    (∀ b ∈ db.budgets, budgetMatches u category currency b = false →
      b ∈ (save_expense db u amount currency reason category now).1.budgets) := by
  have hbudgets : (save_expense db u amount currency reason category now).1.budgets
      = db.budgets.map (fun b =>
          if budgetMatches u category currency b then
            { b with current_spent := b.current_spent + amount, updated_at := now }
          else b) := rfl
  have hmatched : (save_expense db u amount currency reason category now).2.1
      = db.budgets.any (budgetMatches u category currency) := rfl
  refine ⟨rfl, ?_, ?_, ?_⟩
  · intro hnone
    have hall : ∀ b ∈ db.budgets, budgetMatches u category currency b = false := by
      intro b hb
      have hb' := List.find?_eq_none.mp hnone b hb
      simpa using hb'
    constructor
    · rw [hbudgets]
      have hid : db.budgets.map (fun b =>
          if budgetMatches u category currency b then
            { b with current_spent := b.current_spent + amount, updated_at := now }
          else b) = db.budgets.map id :=
        List.map_congr_left (fun b hb => by rw [hall b hb]; rfl)
      rw [hid, List.map_id]
    · rw [hmatched, List.any_eq_false]
      intro b hb
      simp [hall b hb]
  · intro b hb
    have hpb : budgetMatches u category currency b = true :=
      @List.find?_some Budget (budgetMatches u category currency) b db.budgets hb
    constructor
    · rw [hbudgets]
      rw [find?_map_stable _ _
        (fun x => by
          cases hx : budgetMatches u category currency x with
          | false =>
            rw [if_neg (by simp)]
            exact hx
          | true =>
            rw [if_pos rfl]
            exact hx) _, hb]
      simp [hpb]
    · rw [hmatched, List.any_eq_true]
      exact ⟨b, List.mem_of_find?_eq_some hb, hpb⟩
  · intro b hb hnm
    rw [hbudgets]
    refine List.mem_map.mpr ⟨b, hb, ?_⟩
    rw [hnm]
    rfl

theorem save_expense_budget_spend_witness :
    (save_expense c8db 1 40 "USD" "groceries" "food" "2026-10-02 00:00:00").1.expenses
      = [mkExpense 1 1 40 "USD" "groceries" "food" "2026-10-02 00:00:00"] ∧
    (save_expense c8db 1 40 "USD" "groceries" "food" "2026-10-02 00:00:00").1.budgets.find?
        (budgetMatches 1 "food" "USD")
      = some { c6budget with current_spent := c6budget.current_spent + 40, updated_at := "2026-10-02 00:00:00" } ∧
    (save_expense c8db 1 40 "USD" "groceries" "food" "2026-10-02 00:00:00").2.1 = true := by
  have hmain := save_expense_budget_spend c8db 1 40 "USD" "groceries" "food"
    "2026-10-02 00:00:00"
  have hsome := hmain.2.2.1 c6budget (by simp [c8db, c6budget, budgetMatches, List.find?])
  exact ⟨hmain.1, hsome.1, hsome.2⟩

/-! ## C9: numeric parse failure re-prompts in place -/

/-- C9: in every dialogue state expecting a numeric amount, an input whose
`float(...)` parse fails (`none`) leaves the dialogue in the same state,
leaves `context.user_data` exactly as it was, and performs no durable
write (the database value passes through untouched). -/
theorem numeric_parse_failure_reprompts :
    (∀ ud, get_goal_amount ud none = (DlgState.GOAL_AMOUNT, ud)) ∧
    (∀ ud, get_debt_amount ud none = (DlgState.DEBT_AMOUNT, ud)) ∧
    (∀ ud, get_expense_amount ud none = (DlgState.EXPENSE_AMOUNT, ud)) ∧
    (∀ ud, get_budget_amount ud none = (DlgState.BUDGET_AMOUNT, ud)) ∧
    (∀ ud, get_payment_target ud none = (DlgState.PAYMENT_TARGET, ud)) ∧
    (∀ ud, get_payment_amount ud none = (DlgState.PAYMENT_AMOUNT, ud)) ∧
    (∀ ud, get_asset_amount ud none = (DlgState.ASSET_AMOUNT, ud)) ∧
    (∀ db ud t, get_amount_and_save db ud none t
        = (DlgState.ADD_SAVINGS_AMOUNT, ud, db, none)) ∧
    (∀ db ud t, get_payment_amount_and_save db ud none t
        = (DlgState.ADD_PAYMENT_AMOUNT, ud, db)) ∧
    (∀ db ud t, process_asset_update db ud none t
        = (DlgState.UPDATE_ASSET_AMOUNT, ud, db)) :=
  ⟨fun _ => rfl, fun _ => rfl, fun _ => rfl, fun _ => rfl, fun _ => rfl, fun _ => rfl,
   fun _ => rfl, fun _ _ _ => rfl, fun _ _ _ => rfl, fun _ _ _ => rfl⟩

/-! ## C10: the budget upsert's frame -/

/-- C10: running 'set budget' for a triple that already has a budget row
takes the UPDATE branch ("updated"): the matched row gets the new
`amount`, the (coerced) `period` and a fresh `updated_at`, while its
`current_spent`, `created_at`, identifiers and key fields are carried
over unchanged; no row is added or removed, every other row is untouched,
and the id counter does not advance. -/
theorem save_budget_update_frame (db : BudgetsDb) (u : Nat) (category : String)
    (amount : Amount) (currency periodText now : String) (b : Budget)
    (hb : db.rows.find? (budgetMatches u category currency) = some b) :
    (save_budget db u category amount currency periodText now).2 = "updated" ∧
    (save_budget db u category amount currency periodText now).1.rows.find?
        (budgetMatches u category currency)
      = some { b with
          amount := amount,
          period := if periodText = "weekly" ∨ periodText = "monthly" then periodText
                    else "monthly",
          updated_at := now } ∧
    (save_budget db u category amount currency periodText now).1.rows.length
      = db.rows.length ∧
    (∀ x ∈ db.rows, x.id ≠ b.id →
      x ∈ (save_budget db u category amount currency periodText now).1.rows) ∧
    (save_budget db u category amount currency periodText now).1.nextId = db.nextId := by
  have hres : save_budget db u category amount currency periodText now
      = ({ db with rows := db.rows.map (fun x =>
            if x.id = b.id then
              { x with
                amount := amount,
                period := if periodText = "weekly" ∨ periodText = "monthly" then periodText
                          else "monthly",
                updated_at := now }
            else x) },
         "updated") := by
    unfold save_budget
    rw [hb]
  rw [hres]
  refine ⟨rfl, ?_, by simp, ?_, rfl⟩
  · dsimp only
    have hpb : budgetMatches u category currency b = true :=
      @List.find?_some Budget (budgetMatches u category currency) b db.rows hb
    rw [find?_map_stable _ _
      (fun x => by by_cases hx : x.id = b.id <;> simp [hx, budgetMatches]) _, hb]
    simp
  · intro x hx hne
    dsimp only
    refine List.mem_map.mpr ⟨x, hx, ?_⟩
    rw [if_neg hne]

theorem save_budget_update_frame_witness :
    (save_budget c10db 1 "food" 200 "USD" "weekly" "2026-10-05 00:00:00").2
      = "updated" ∧
    (save_budget c10db 1 "food" 200 "USD" "weekly" "2026-10-05 00:00:00").1.rows.find?
        (budgetMatches 1 "food" "USD")
      = some { c6budget with
          amount := 200,
          period := if ("weekly" : String) = "weekly" ∨ ("weekly" : String) = "monthly" then "weekly" else "monthly",
          updated_at := "2026-10-05 00:00:00" } ∧
    (save_budget c10db 1 "food" 200 "USD" "weekly" "2026-10-05 00:00:00").1.rows.length
      = c10db.rows.length ∧
    (save_budget c10db 1 "food" 200 "USD" "weekly" "2026-10-05 00:00:00").1.nextId
      = c10db.nextId := by
  have hmain := save_budget_update_frame c10db 1 "food" 200 "USD" "weekly"
    "2026-10-05 00:00:00" c6budget (by simp [c10db, c6budget, budgetMatches, List.find?])
  exact ⟨hmain.1, hmain.2.1, hmain.2.2.1, hmain.2.2.2.2⟩

end Logger
